import Mathlib

/-!
Shallow embedding of the `ApiClient` class of this repository's API module
(the file defining `LoginCredentials`, `TokenResponse`, `RefreshTokenResponse`
and the singleton `apiClient`).

The browser environment is made explicit:
* `ClientState` holds whether `window` is defined, the two `localStorage`
  entries `access_token` / `refresh_token`, and the list of targets assigned
  to `window.location.href` (oldest first);
* `World` adds the network: an ordered queue of outcomes that successive
  `fetch` calls will receive, and a log of every request issued;
* JavaScript truthiness (`if (token)`, `data ? ... : undefined`), the
  template-literal coercion of `null`, and the string coercion applied by
  `localStorage.setItem` are modelled explicitly;
* thrown `Error`s, rejected `fetch` promises and rejected `response.json()`
  promises become the `Except` error branch.

The class constructor fixes `baseUrl` from build-time configuration
(fallback `http://localhost:8000`); the methods below take `baseUrl` as an
explicit first argument, since nothing in their behaviour depends on its
value.
-/

/-- A JSON value, as produced by `response.json()` and consumed by
`JSON.stringify`. Strings, booleans, `null` and objects cover every value
the endpoints of this client exchange. -/
inductive JsonVal where
  | jnull
  | jbool (b : Bool)
  | jstr (s : String)
  | jobj (fields : List (String × JsonVal))

/-- JavaScript truthiness of a `string | null` value: `null` and the empty
string are falsy, every other string is truthy. This is the test
`if (token)` and `if (!refreshToken)` perform. -/
def strTruthy : Option String → Bool
  | none => false
  | some s => !s.isEmpty

/-- JavaScript truthiness of a JSON value, as tested by the ternary
`data ? JSON.stringify(data) : undefined` in `post`/`put`: `null`, `false`
and the empty string are falsy. -/
def JsonVal.truthy : JsonVal → Bool
  | .jnull => false
  | .jbool b => b
  | .jstr s => !s.isEmpty
  | .jobj _ => true

/-- JavaScript property access `v.k` on a parsed JSON value; `none` models
`undefined` (missing field, or property access on a primitive). -/
def JsonVal.field : JsonVal → String → Option JsonVal
  | .jobj fs, k => (fs.find? fun p => p.1 == k).map Prod.snd
  | _, _ => none

/-- The string coercion JavaScript applies when a value reaches a string
position such as `localStorage.setItem` (e.g. `data.access` when the field
is absent becomes the string "undefined"). -/
def jsString : Option JsonVal → String
  | none => "undefined"
  | some .jnull => "null"
  | some (.jbool b) => cond b "true" "false"
  | some (.jstr s) => s
  | some (.jobj _) => "[object Object]"

/-- The template-literal coercion of a `string | null` value, as in
`Bearer ${token}`: `null` renders as the string "null". -/
def jsTemplate : Option String → String
  | none => "null"
  | some s => s

/-- Escaping of one character inside a JSON string literal, as
`JSON.stringify` performs it. -/
def jsonEscapeChar (c : Char) : String :=
  if c = '\x22' then "\\\x22"
  else if c = '\\' then "\\\\"
  else if c = '\n' then "\\n"
  else if c = '\r' then "\\r"
  else if c = '\t' then "\\t"
  else String.singleton c

/-- Escaping of a string for inclusion in a JSON string literal. -/
def jsonEscape (s : String) : String :=
  String.join (s.toList.map jsonEscapeChar)

mutual

/-- `JSON.stringify` on a JSON value. -/
def JsonVal.stringify : JsonVal → String
  | .jnull => "null"
  | .jbool b => cond b "true" "false"
  | .jstr s => "\x22" ++ jsonEscape s ++ "\x22"
  | .jobj fs => "\x7b" ++ JsonVal.stringifyFields fs ++ "\x7d"

/-- `JSON.stringify` on the comma-separated field list of an object. -/
def JsonVal.stringifyFields : List (String × JsonVal) → String
  | [] => ""
  | [kv] => "\x22" ++ jsonEscape kv.1 ++ "\x22:" ++ JsonVal.stringify kv.2
  | kv :: rest =>
      "\x22" ++ jsonEscape kv.1 ++ "\x22:" ++ JsonVal.stringify kv.2 ++ ","
        ++ JsonVal.stringifyFields rest

end

/-- Headers as an insertion-ordered association list, mirroring a plain
JavaScript object `Record<string, string>`: assigning to a present key
overwrites it in place, assigning to an absent key appends it. -/
def setHeader (hs : List (String × String)) (k v : String) :
    List (String × String) :=
  if hs.any fun p => p.1 == k then hs.map fun p => if p.1 == k then (k, v) else p
  else hs ++ [(k, v)]

/-- The object spread `{ base..., extra... }` on header records: each entry
of `extra` is assigned in order on top of `base`. -/
def mergeHeaders (base extra : List (String × String)) :
    List (String × String) :=
  extra.foldl (fun hs p => setHeader hs p.1 p.2) base

/-- Reading a header from a header record. -/
def getHeader (hs : List (String × String)) (k : String) : Option String :=
  (hs.find? fun p => p.1 == k).map Prod.snd

/-- An outgoing HTTP request as handed to `fetch`. -/
structure HttpRequest where
  url : String
  method : Option String
  headers : List (String × String)
  body : Option String

/-- An HTTP response: status code, status text, and the JSON value its body
parses to (`none` when `response.json()` would reject). -/
structure Response where
  status : Nat
  statusText : String
  body : Option JsonVal

/-- `response.ok` of the fetch API: status in the inclusive range 200-299. -/
def Response.ok (r : Response) : Bool :=
  decide (200 ≤ r.status) && decide (r.status ≤ 299)

/-- What the network does to one `fetch` call: deliver a response, or reject
the promise (network failure). -/
inductive FetchOutcome where
  | resp (r : Response)
  | netErr

/-- The browser-visible state the client touches: whether `window` is
defined, the two `localStorage` entries, and the navigation targets assigned
to `window.location.href` so far (oldest first). -/
structure ClientState where
  window : Bool
  access : Option String
  refresh : Option String
  nav : List String

/-- The world a call runs in: the client-visible browser state, the queue of
outcomes the network will hand to successive `fetch` calls, and the log of
requests issued so far (oldest first). -/
structure World where
  state : ClientState
  responses : List FetchOutcome
  log : List HttpRequest

/-- One `fetch` call: records the outgoing request and consumes the next
queued network outcome (an exhausted queue behaves as a network failure). -/
def fetchM (req : HttpRequest) (w : World) : FetchOutcome × World :=
  match w.responses with
  | [] => (.netErr, { w with log := w.log ++ [req] })
  | o :: rest => (o, { w with responses := rest, log := w.log ++ [req] })

/-- A failed promise: a thrown `new Error(msg)`, a rejected `fetch`, or a
rejected `response.json()`. -/
inductive JsError where
  | thrown (msg : String)
  | fetchFailed
  | jsonFailed

/-- The `LoginCredentials` interface. -/
structure LoginCredentials where
  username : String
  password : String

/-- The slice of `RequestInit` this client uses: optional method, headers
record, optional body. -/
structure RequestInit where
  method : Option String := none
  headers : List (String × String) := []
  body : Option String := none

namespace ApiClient

/-- `getAccessToken`: `localStorage.getItem('access_token')`, `null` when
`window` is undefined. -/
def getAccessToken (s : ClientState) : Option String :=
  if s.window then s.access else none

/-- `getRefreshToken`: `localStorage.getItem('refresh_token')`, `null` when
`window` is undefined. -/
def getRefreshToken (s : ClientState) : Option String :=
  if s.window then s.refresh else none

/-- `setAccessToken`: writes `access_token` when `window` is defined. -/
def setAccessToken (token : String) (s : ClientState) : ClientState :=
  if s.window then { s with access := some token } else s

/-- `setTokens`: writes both `access_token` and `refresh_token` when
`window` is defined. -/
def setTokens (access refresh : String) (s : ClientState) : ClientState :=
  if s.window then { s with access := some access, refresh := some refresh }
  else s

/-- `clearTokens`: removes both entries when `window` is defined. -/
def clearTokens (s : ClientState) : ClientState :=
  if s.window then { s with access := none, refresh := none } else s

/-- The guarded assignment `window.location.href = target` the client
performs on logout, unrecoverable 401, and 403. -/
def assignLocation (target : String) (s : ClientState) : ClientState :=
  if s.window then { s with nav := s.nav ++ [target] } else s

/-- The POST request `refreshToken` sends: the stored refresh token,
JSON-encoded, to the refresh endpoint (used only when that token is truthy,
hence the harmless `getD` default). -/
def refreshRequest (baseUrl : String) (s : ClientState) : HttpRequest :=
  { url := baseUrl ++ "/api/v1/token/refresh/"
    method := some "POST"
    headers := [("Content-Type", "application/json")]
    body := some (JsonVal.stringify
      (.jobj [("refresh", .jstr ((getRefreshToken s).getD ""))])) }

/-- `refreshToken()`: reads the refresh token; when falsy, returns `false`
with no network call. Otherwise POSTs it to the refresh endpoint inside a
`try`: a rejected `fetch`, a non-ok status, or a rejected `json()` all yield
`false` with the stored tokens untouched; on success stores the `access`
field of the parsed body via `setAccessToken` and returns `true`. -/
def refreshToken (baseUrl : String) (w : World) : Bool × World :=
  let rt := getRefreshToken w.state
  if !(strTruthy rt) then (false, w)
  else
    let r := fetchM (refreshRequest baseUrl w.state) w
    match r.1 with
    | .netErr => (false, r.2)
    | .resp response =>
      if !response.ok then (false, r.2)
      else
        match response.body with
        | none => (false, r.2)
        | some data =>
          (true, { r.2 with
            state := setAccessToken (jsString (data.field "access")) r.2.state })

/-- The header record `request` builds before fetching: `Content-Type`
plus the caller's headers, then `Authorization: Bearer <token>` assigned on
top when the stored access token is truthy. -/
def requestHeaders (s : ClientState) (options : RequestInit) :
    List (String × String) :=
  let token := getAccessToken s
  let headers0 := mergeHeaders [("Content-Type", "application/json")] options.headers
  if strTruthy token then
    setHeader headers0 "Authorization" ("Bearer " ++ jsTemplate token)
  else headers0

/-- The first request `request` hands to `fetch`: the built URL, the
caller's method and body, and the headers built by `requestHeaders`. -/
def initialRequest (baseUrl endpoint : String) (options : RequestInit)
    (s : ClientState) : HttpRequest :=
  { url := baseUrl ++ endpoint
    method := options.method
    headers := requestHeaders s options
    body := options.body }

/-- `request<T>(endpoint, options)`: attaches `Content-Type` plus the
caller's headers, then `Authorization: Bearer <token>` when the stored
access token is truthy; fetches; on 401 runs one refresh and, when it
succeeds, retries the identical request once with a rebuilt `Authorization`
header, an unsuccessful retry throwing `API error: <statusText>`; a failed
refresh clears both tokens, navigates to `/login` and throws
`Authentication failed`; 403 navigates to `/403` and throws
`Access forbidden`; any other non-ok status throws
`API error: <statusText>`; an ok response returns its parsed JSON body. -/
def request (baseUrl endpoint : String) (options : RequestInit) (w : World) :
    Except JsError JsonVal × World :=
  let url := baseUrl ++ endpoint
  let headers := requestHeaders w.state options
  let r1 := fetchM (initialRequest baseUrl endpoint options w.state) w
  match r1.1 with
  | .netErr => (.error .fetchFailed, r1.2)
  | .resp response =>
    if response.ok then
      match response.body with
      | some j => (.ok j, r1.2)
      | none => (.error .jsonFailed, r1.2)
    else if response.status == 401 then
      let rr := refreshToken baseUrl r1.2
      if rr.1 then
        let retryHeaders := setHeader headers "Authorization"
          ("Bearer " ++ jsTemplate (getAccessToken rr.2.state))
        let r2 := fetchM
          { url := url, method := options.method, headers := retryHeaders,
            body := options.body } rr.2
        match r2.1 with
        | .netErr => (.error .fetchFailed, r2.2)
        | .resp retryResponse =>
          if !retryResponse.ok then
            (.error (.thrown ("API error: " ++ retryResponse.statusText)), r2.2)
          else
            match retryResponse.body with
            | some j => (.ok j, r2.2)
            | none => (.error .jsonFailed, r2.2)
      else
        (.error (.thrown "Authentication failed"),
          { rr.2 with state := assignLocation "/login" (clearTokens rr.2.state) })
    else if response.status == 403 then
      (.error (.thrown "Access forbidden"),
        { r1.2 with state := assignLocation "/403" r1.2.state })
    else
      (.error (.thrown ("API error: " ++ response.statusText)), r1.2)

/-- The unauthenticated POST request `login` sends: the JSON-encoded
credentials to the token-issuance endpoint. -/
def loginRequest (baseUrl : String) (credentials : LoginCredentials) :
    HttpRequest :=
  { url := baseUrl ++ "/api/v1/token/"
    method := some "POST"
    headers := [("Content-Type", "application/json")]
    body := some (JsonVal.stringify (.jobj
      [("username", .jstr credentials.username),
       ("password", .jstr credentials.password)])) }

/-- `login(credentials)`: unauthenticated POST of the JSON-encoded
credentials to the token endpoint; non-ok throws `Invalid credentials`
before anything is stored; on success stores `data.access` and
`data.refresh` via `setTokens` and returns the parsed body. -/
def login (baseUrl : String) (credentials : LoginCredentials) (w : World) :
    Except JsError JsonVal × World :=
  let r := fetchM (loginRequest baseUrl credentials) w
  match r.1 with
  | .netErr => (.error .fetchFailed, r.2)
  | .resp response =>
    if !response.ok then (.error (.thrown "Invalid credentials"), r.2)
    else
      match response.body with
      | none => (.error .jsonFailed, r.2)
      | some data =>
        (.ok data, { r.2 with
          state := setTokens (jsString (data.field "access"))
            (jsString (data.field "refresh")) r.2.state })

/-- `logout()`: `clearTokens()` then the guarded navigation to `/login`.
Both steps are unconditional and total. -/
def logout (s : ClientState) : ClientState :=
  assignLocation "/login" (clearTokens s)

/-- The ternary `data ? JSON.stringify(data) : undefined` of `post`/`put`,
with `data : unknown` possibly absent (`none`). -/
def stringifyIfTruthy : Option JsonVal → Option String
  | none => none
  | some d => if d.truthy then some (JsonVal.stringify d) else none

/-- `get<T>(endpoint)`. -/
def get (baseUrl endpoint : String) (w : World) :
    Except JsError JsonVal × World :=
  request baseUrl endpoint { method := some "GET" } w

/-- `post<T>(endpoint, data?)`. -/
def post (baseUrl endpoint : String) (data : Option JsonVal) (w : World) :
    Except JsError JsonVal × World :=
  request baseUrl endpoint
    { method := some "POST", body := stringifyIfTruthy data } w

/-- `put<T>(endpoint, data?)`. -/
def put (baseUrl endpoint : String) (data : Option JsonVal) (w : World) :
    Except JsError JsonVal × World :=
  request baseUrl endpoint
    { method := some "PUT", body := stringifyIfTruthy data } w

/-- `delete<T>(endpoint)`. -/
def delete (baseUrl endpoint : String) (w : World) :
    Except JsError JsonVal × World :=
  request baseUrl endpoint { method := some "DELETE" } w

end ApiClient

open ApiClient

theorem setAccessToken_window (t : String) (s : ClientState) :
    (setAccessToken t s).window = s.window := by
  unfold ApiClient.setAccessToken; split <;> rfl

theorem clearTokens_window (s : ClientState) :
    (clearTokens s).window = s.window := by
  unfold ApiClient.clearTokens; split <;> rfl

theorem refreshToken_window (baseUrl : String) (w : World) :
    (refreshToken baseUrl w).2.state.window = w.state.window := by
  obtain ⟨s, resps, log⟩ := w
  cases h : strTruthy (getRefreshToken s)
  all_goals cases resps with
  | nil => simp [ApiClient.refreshToken, fetchM, h]
  | cons o rest =>
    cases o with
    | netErr => simp [ApiClient.refreshToken, fetchM, h]
    | resp r =>
      cases hok : r.ok
      all_goals cases hb : r.body
      all_goals simp [ApiClient.refreshToken, fetchM, h, hok, hb, setAccessToken_window]

/-- C3: a response with status 403 short-circuits: the call fails with the
thrown `Access forbidden` error, exactly one request — the original one,
so in particular no refresh request — is issued, the stored tokens are
left unchanged, and navigation to `/403` is triggered. -/
theorem request_403_forbidden (baseUrl endpoint : String)
    (options : RequestInit) (w : World) (r1 : Response)
    (rest : List FetchOutcome)
    (hw : w.state.window = true)
    (hresp : w.responses = .resp r1 :: rest)
    (h403 : r1.status = 403) :
    request baseUrl endpoint options w =
      (.error (.thrown "Access forbidden"),
        { state := { w.state with nav := w.state.nav ++ ["/403"] }
          responses := rest
          log := w.log ++ [initialRequest baseUrl endpoint options w.state] }) := by
  obtain ⟨s, resps, log⟩ := w
  simp only at hresp hw
  subst hresp
  simp [ApiClient.request, fetchM, Response.ok, h403, ApiClient.assignLocation, hw]

theorem request_403_forbidden_witness :
    (⟨⟨true, some "A1", some "R1", []⟩,
      [.resp ⟨403, "Forbidden", none⟩], []⟩ : World).state.window = true ∧
    (⟨⟨true, some "A1", some "R1", []⟩,
      [.resp ⟨403, "Forbidden", none⟩], []⟩ : World).responses
      = [.resp ⟨403, "Forbidden", none⟩] ∧
    (⟨403, "Forbidden", none⟩ : Response).status = 403 ∧
    request "http://localhost:8000" "/api/v1/customers/" {}
        ⟨⟨true, some "A1", some "R1", []⟩, [.resp ⟨403, "Forbidden", none⟩], []⟩ =
      (.error (.thrown "Access forbidden"),
        ⟨⟨true, some "A1", some "R1", ["/403"]⟩, [],
          [initialRequest "http://localhost:8000" "/api/v1/customers/" {}
            ⟨true, some "A1", some "R1", []⟩]⟩) := by
  refine ⟨rfl, rfl, rfl, ?_⟩
  exact request_403_forbidden "http://localhost:8000" "/api/v1/customers/" {}
    ⟨⟨true, some "A1", some "R1", []⟩, [.resp ⟨403, "Forbidden", none⟩], []⟩
    ⟨403, "Forbidden", none⟩ [] rfl rfl rfl

theorem fetchM_log (req : HttpRequest) (w : World) :
    (fetchM req w).2.log = w.log ++ [req] := by
  obtain ⟨s, resps, log⟩ := w
  cases resps <;> rfl

theorem refreshToken_log_grows (baseUrl : String) (w : World) :
    w.log <+: (refreshToken baseUrl w).2.log := by
  obtain ⟨s, resps, log⟩ := w
  cases h : strTruthy (getRefreshToken s)
  all_goals cases resps with
  | nil => simp [ApiClient.refreshToken, fetchM, h, List.prefix_append,
      List.prefix_rfl]
  | cons o rest =>
    cases o with
    | netErr => simp [ApiClient.refreshToken, fetchM, h, List.prefix_append,
        List.prefix_rfl]
    | resp r =>
      cases hok : r.ok
      all_goals cases hb : r.body
      all_goals simp [ApiClient.refreshToken, fetchM, h, hok, hb,
        List.prefix_append, List.prefix_rfl]

theorem request_log_grows (baseUrl endpoint : String) (options : RequestInit)
    (w : World) :
    w.log ++ [initialRequest baseUrl endpoint options w.state]
      <+: (request baseUrl endpoint options w).2.log := by
  have hpre1 := fetchM_log (initialRequest baseUrl endpoint options w.state) w
  have hrt2 : w.log ++ [initialRequest baseUrl endpoint options w.state]
      <+: (refreshToken baseUrl
        (fetchM (initialRequest baseUrl endpoint options w.state) w).2).2.log := by
    rw [← hpre1]
    exact refreshToken_log_grows _ _
  simp only [ApiClient.request]
  repeat' split
  all_goals simp only [fetchM_log]
  all_goals rw [← hpre1]
  all_goals first
    | exact List.prefix_rfl
    | exact List.prefix_append _ _
    | (rw [hpre1]; exact hrt2)
    | (rw [hpre1]; exact hrt2.trans (List.prefix_append _ _))

theorem head_drop_of_extension {α : Type} (l1 l2 : List α) (a : α)
    (h : l1 ++ [a] <+: l2) : (l2.drop l1.length).head? = some a := by
  obtain ⟨t, ht⟩ := h
  rw [← ht, List.append_assoc, List.drop_left]
  rfl

theorem getHeader_setHeader (hs : List (String × String)) (k v : String) :
    getHeader (setHeader hs k v) k = some v := by
  induction hs with
  | nil => simp [setHeader, getHeader]
  | cons p rest ih =>
    cases hp : (p.1 == k) <;> cases ha : rest.any (fun q => q.1 == k)
    · simp only [setHeader, List.any_cons, hp, ha, Bool.false_or,
        if_neg Bool.false_ne_true] at ih ⊢
      simp [getHeader, List.find?, hp] at ih ⊢
      exact ih
    · simp only [setHeader, List.any_cons, hp, ha, Bool.false_or, if_pos rfl]
        at ih ⊢
      simp [getHeader, List.find?, hp] at ih ⊢
      exact ih
    · have hpk : p.1 = k := by simpa using hp
      simp [setHeader, getHeader, List.any_cons, hp, hpk, List.find?]
    · have hpk : p.1 = k := by simpa using hp
      simp [setHeader, getHeader, List.any_cons, hp, hpk, List.find?]

/-- C1: a 401 answered by a successful refresh (truthy stored refresh
token, ok refresh response carrying a string `access` field) leads to
exactly one reissue of the original request — same URL, method and body —
with the `Authorization` header rebuilt from the new access token; when
that single retry comes back with a non-success status the call fails with
the thrown `API error: <retry status text>`, and the log shows the refresh
endpoint was hit exactly once — no second refresh is attempted. -/
theorem request_401_single_retry (baseUrl endpoint : String)
    (options : RequestInit) (w : World) (r1 r2 r3 : Response)
    (rest : List FetchOutcome) (d2 : JsonVal) (a2 : String)
    (hw : w.state.window = true)
    (hrt : strTruthy w.state.refresh = true)
    (hresp : w.responses = [.resp r1, .resp r2, .resp r3] ++ rest)
    (h401 : r1.status = 401)
    (hok2 : r2.ok = true)
    (hbody2 : r2.body = some d2)
    (ha2 : d2.field "access" = some (.jstr a2))
    (hretry : r3.ok = false) :
    request baseUrl endpoint options w =
      (.error (.thrown ("API error: " ++ r3.statusText)),
        { state := { w.state with access := some a2 }
          responses := rest
          log := w.log ++
            [initialRequest baseUrl endpoint options w.state,
             refreshRequest baseUrl w.state,
             { url := baseUrl ++ endpoint
               method := options.method
               headers := setHeader (requestHeaders w.state options)
                 "Authorization" ("Bearer " ++ a2)
               body := options.body }] }) ∧
    (baseUrl ++ endpoint ≠ baseUrl ++ "/api/v1/token/refresh/" →
      ((request baseUrl endpoint options w).2.log.drop w.log.length).countP
          (fun q => q.url == baseUrl ++ "/api/v1/token/refresh/") = 1) := by
  obtain ⟨s, resps, log⟩ := w
  simp only at hw hrt hresp
  subst hresp
  have h1 : request baseUrl endpoint options ⟨s,
      [FetchOutcome.resp r1, FetchOutcome.resp r2, FetchOutcome.resp r3] ++ rest,
      log⟩ =
      (.error (.thrown ("API error: " ++ r3.statusText)),
        { state := { s with access := some a2 }
          responses := rest
          log := log ++
            [initialRequest baseUrl endpoint options s,
             refreshRequest baseUrl s,
             { url := baseUrl ++ endpoint
               method := options.method
               headers := setHeader (requestHeaders s options)
                 "Authorization" ("Bearer " ++ a2)
               body := options.body }] }) := by
    have hok1 : r1.ok = false := by simp [Response.ok, h401]
    simp [ApiClient.request, ApiClient.refreshToken, fetchM,
      ApiClient.getRefreshToken, ApiClient.getAccessToken,
      ApiClient.setAccessToken, jsString, jsTemplate, hw, hrt, h401, hok1,
      hok2, hbody2, ha2, hretry]
  refine ⟨h1, fun hne => ?_⟩
  rw [h1]
  simp only [List.drop_left]
  have hi : ((initialRequest baseUrl endpoint options s).url
      == baseUrl ++ "/api/v1/token/refresh/") = false := by
    simp [initialRequest, hne]
  have hr : ((refreshRequest baseUrl s).url
      == baseUrl ++ "/api/v1/token/refresh/") = true := by
    simp [refreshRequest]
  simp [List.countP_cons, hi, hr, hne]

theorem request_401_single_retry_witness :
    (⟨⟨true, some "A1", some "R1", []⟩,
      [.resp ⟨401, "Unauthorized", none⟩,
       .resp ⟨200, "OK", some (.jobj [("access", .jstr "A2")])⟩,
       .resp ⟨401, "Unauthorized", none⟩], []⟩ : World).state.window = true ∧
    strTruthy (some "R1") = true ∧
    (request "http://localhost:8000" "/api/v1/vouchers/" { method := some "GET" }
        ⟨⟨true, some "A1", some "R1", []⟩,
          [.resp ⟨401, "Unauthorized", none⟩,
           .resp ⟨200, "OK", some (.jobj [("access", .jstr "A2")])⟩,
           .resp ⟨401, "Unauthorized", none⟩], []⟩ =
      (.error (.thrown ("API error: " ++ "Unauthorized")),
        { state := ⟨true, some "A2", some "R1", []⟩
          responses := []
          log := [] ++
            [initialRequest "http://localhost:8000" "/api/v1/vouchers/"
              { method := some "GET" } ⟨true, some "A1", some "R1", []⟩,
             refreshRequest "http://localhost:8000" ⟨true, some "A1", some "R1", []⟩,
             { url := "http://localhost:8000" ++ "/api/v1/vouchers/"
               method := some "GET"
               headers := setHeader
                 (requestHeaders ⟨true, some "A1", some "R1", []⟩
                   { method := some "GET" })
                 "Authorization" ("Bearer " ++ "A2")
               body := none }] }) ∧
      ("http://localhost:8000" ++ "/api/v1/vouchers/"
          ≠ "http://localhost:8000" ++ "/api/v1/token/refresh/" →
        ((request "http://localhost:8000" "/api/v1/vouchers/"
            { method := some "GET" }
            ⟨⟨true, some "A1", some "R1", []⟩,
              [.resp ⟨401, "Unauthorized", none⟩,
               .resp ⟨200, "OK", some (.jobj [("access", .jstr "A2")])⟩,
               .resp ⟨401, "Unauthorized", none⟩], []⟩).2.log.drop
            ([] : List HttpRequest).length).countP
            (fun q => q.url == "http://localhost:8000" ++ "/api/v1/token/refresh/")
          = 1)) :=
  ⟨rfl, by decide,
    request_401_single_retry "http://localhost:8000" "/api/v1/vouchers/"
      { method := some "GET" }
      ⟨⟨true, some "A1", some "R1", []⟩,
        [.resp ⟨401, "Unauthorized", none⟩,
         .resp ⟨200, "OK", some (.jobj [("access", .jstr "A2")])⟩,
         .resp ⟨401, "Unauthorized", none⟩], []⟩
      ⟨401, "Unauthorized", none⟩
      ⟨200, "OK", some (.jobj [("access", .jstr "A2")])⟩
      ⟨401, "Unauthorized", none⟩ [] (.jobj [("access", .jstr "A2")]) "A2"
      rfl (by decide) rfl rfl (by decide) rfl rfl (by decide)⟩

/-- C2: a 401 whose ensuing refresh attempt fails — whatever the failure
mode — makes the call fail with the thrown `Authentication failed` error,
with both stored tokens deleted and navigation to `/login` triggered. -/
theorem request_401_refresh_failed (baseUrl endpoint : String)
    (options : RequestInit) (w w2 : World) (r1 : Response)
    (rest : List FetchOutcome)
    (hw : w.state.window = true)
    (hresp : w.responses = .resp r1 :: rest)
    (h401 : r1.status = 401)
    (hfail : refreshToken baseUrl
        { state := w.state, responses := rest,
          log := w.log ++ [initialRequest baseUrl endpoint options w.state] }
      = (false, w2)) :
    request baseUrl endpoint options w =
      (.error (.thrown "Authentication failed"),
        { w2 with state := { w2.state with
            access := none, refresh := none,
            nav := w2.state.nav ++ ["/login"] } }) := by
  obtain ⟨s, resps, log⟩ := w
  simp only at hw hresp hfail
  subst hresp
  have hw2 : w2.state.window = true := by
    have hpres := refreshToken_window baseUrl
      ⟨s, rest, log ++ [initialRequest baseUrl endpoint options s]⟩
    rw [hfail] at hpres
    simpa [hw] using hpres
  simp [ApiClient.request, fetchM, Response.ok, h401, hfail,
    ApiClient.clearTokens, ApiClient.assignLocation, hw2]

theorem request_401_refresh_failed_witness :
    (⟨⟨true, some "A1", none, []⟩,
      [.resp ⟨401, "Unauthorized", none⟩], []⟩ : World).state.window = true ∧
    refreshToken "http://localhost:8000"
        ⟨⟨true, some "A1", none, []⟩, [],
          [initialRequest "http://localhost:8000" "/api/v1/customers/"
            { method := some "GET" } ⟨true, some "A1", none, []⟩]⟩
      = (false, ⟨⟨true, some "A1", none, []⟩, [],
          [initialRequest "http://localhost:8000" "/api/v1/customers/"
            { method := some "GET" } ⟨true, some "A1", none, []⟩]⟩) ∧
    request "http://localhost:8000" "/api/v1/customers/" { method := some "GET" }
        ⟨⟨true, some "A1", none, []⟩, [.resp ⟨401, "Unauthorized", none⟩], []⟩ =
      (.error (.thrown "Authentication failed"),
        ⟨⟨true, none, none, ["/login"]⟩, [],
          [initialRequest "http://localhost:8000" "/api/v1/customers/"
            { method := some "GET" } ⟨true, some "A1", none, []⟩]⟩) :=
  ⟨rfl, rfl,
    request_401_refresh_failed "http://localhost:8000" "/api/v1/customers/"
      { method := some "GET" }
      ⟨⟨true, some "A1", none, []⟩, [.resp ⟨401, "Unauthorized", none⟩], []⟩
      ⟨⟨true, some "A1", none, []⟩, [],
        [initialRequest "http://localhost:8000" "/api/v1/customers/"
          { method := some "GET" } ⟨true, some "A1", none, []⟩]⟩
      ⟨401, "Unauthorized", none⟩ [] rfl rfl rfl rfl⟩

/-- C9: `logout` is total (it is a plain function into `ClientState`, so it
never throws) and idempotent: in a browser context, any positive number of
consecutive calls — whatever tokens were stored beforehand — leaves no
tokens persisted and triggers one navigation to `/login` per call. -/
theorem logout_idempotent_total (s : ClientState) (hw : s.window = true)
    (n : Nat) :
    (ApiClient.logout^[n + 1] s).window = true ∧
    (ApiClient.logout^[n + 1] s).access = none ∧
    (ApiClient.logout^[n + 1] s).refresh = none ∧
    (ApiClient.logout^[n + 1] s).nav
      = s.nav ++ List.replicate (n + 1) "/login" := by
  induction n with
  | zero =>
    simp [ApiClient.logout, ApiClient.clearTokens, ApiClient.assignLocation, hw]
  | succ n ih =>
    obtain ⟨ihw, iha, ihr, ihn⟩ := ih
    rw [Function.iterate_succ_apply']
    generalize ApiClient.logout^[n + 1] s = t at ihw iha ihr ihn
    simp [ApiClient.logout, ApiClient.clearTokens, ApiClient.assignLocation,
      ihw, iha, ihr, ihn, List.replicate_succ']

/-- C4: `refreshToken` is total (a plain function into `Bool × World`, so
it never throws) and yields `false` in every failure case: with no stored
refresh token it returns `false` leaving the world untouched — in
particular no request is issued; with a stored truthy refresh token, a
rejected fetch (network failure) or a non-success status each yield
`false` with the client state — in particular both stored tokens —
untouched. -/
theorem refreshToken_failure_false (baseUrl : String) (w : World) :
    (w.state.refresh = none → refreshToken baseUrl w = (false, w)) ∧
    (∀ rest, strTruthy (getRefreshToken w.state) = true →
      w.responses = .netErr :: rest →
      refreshToken baseUrl w =
        (false, { state := w.state, responses := rest,
                  log := w.log ++ [refreshRequest baseUrl w.state] })) ∧
    (∀ r rest, strTruthy (getRefreshToken w.state) = true →
      w.responses = .resp r :: rest → r.ok = false →
      refreshToken baseUrl w =
        (false, { state := w.state, responses := rest,
                  log := w.log ++ [refreshRequest baseUrl w.state] })) := by
  obtain ⟨s, resps, log⟩ := w
  refine ⟨?_, ?_, ?_⟩
  · intro hnone
    simp only at hnone
    simp [ApiClient.refreshToken, ApiClient.getRefreshToken, hnone, strTruthy]
  · intro rest ht hresp
    simp only at ht hresp
    subst hresp
    simp [ApiClient.refreshToken, fetchM, ht]
  · intro r rest ht hresp hok
    simp only at ht hresp
    subst hresp
    simp [ApiClient.refreshToken, fetchM, ht, hok]

theorem refreshToken_failure_false_witness :
    ((⟨⟨true, some "A1", none, []⟩, [], []⟩ : World).state.refresh = none ∧
      refreshToken "http://localhost:8000" ⟨⟨true, some "A1", none, []⟩, [], []⟩
        = (false, ⟨⟨true, some "A1", none, []⟩, [], []⟩)) ∧
    (strTruthy (getRefreshToken (⟨true, none, some "R1", []⟩ : ClientState)) = true ∧
      refreshToken "http://localhost:8000" ⟨⟨true, none, some "R1", []⟩, [.netErr], []⟩
        = (false, ⟨⟨true, none, some "R1", []⟩, [],
            [refreshRequest "http://localhost:8000" ⟨true, none, some "R1", []⟩]⟩)) ∧
    ((⟨400, "Bad Request", none⟩ : Response).ok = false ∧
      refreshToken "http://localhost:8000"
          ⟨⟨true, none, some "R1", []⟩, [.resp ⟨400, "Bad Request", none⟩], []⟩
        = (false, ⟨⟨true, none, some "R1", []⟩, [],
            [refreshRequest "http://localhost:8000" ⟨true, none, some "R1", []⟩]⟩)) :=
  ⟨⟨rfl, (refreshToken_failure_false "http://localhost:8000"
      ⟨⟨true, some "A1", none, []⟩, [], []⟩).1 rfl⟩,
   ⟨by decide, (refreshToken_failure_false "http://localhost:8000"
      ⟨⟨true, none, some "R1", []⟩, [.netErr], []⟩).2.1 [] (by decide) rfl⟩,
   ⟨by decide, (refreshToken_failure_false "http://localhost:8000"
      ⟨⟨true, none, some "R1", []⟩, [.resp ⟨400, "Bad Request", none⟩], []⟩).2.2
      ⟨400, "Bad Request", none⟩ [] (by decide) rfl (by decide)⟩⟩

/-- C5: a successful refresh — stored truthy refresh token, ok response
whose body parses with a string `access` field — returns `true` and
overwrites only the stored access token, with the value parsed from the
response; the stored refresh token and the navigation state are left
unchanged. -/
theorem refreshToken_success_updates_access_only (baseUrl : String)
    (w : World) (r : Response) (rest : List FetchOutcome) (d : JsonVal)
    (a : String)
    (hw : w.state.window = true)
    (hrt : strTruthy w.state.refresh = true)
    (hresp : w.responses = .resp r :: rest)
    (hok : r.ok = true)
    (hbody : r.body = some d)
    (ha : d.field "access" = some (.jstr a)) :
    refreshToken baseUrl w =
      (true, { state := { w.state with access := some a }, responses := rest,
               log := w.log ++ [refreshRequest baseUrl w.state] }) ∧
    (refreshToken baseUrl w).2.state.refresh = w.state.refresh ∧
    (refreshToken baseUrl w).2.state.nav = w.state.nav := by
  obtain ⟨s, resps, log⟩ := w
  simp only at hw hrt hresp
  subst hresp
  have h1 : refreshToken baseUrl ⟨s, FetchOutcome.resp r :: rest, log⟩ =
      (true, { state := { s with access := some a }, responses := rest,
               log := log ++ [refreshRequest baseUrl s] }) := by
    simp [ApiClient.refreshToken, fetchM, ApiClient.getRefreshToken,
      ApiClient.setAccessToken, hw, hrt, hok, hbody, ha, jsString]
  rw [h1]
  simp

theorem refreshToken_success_updates_access_only_witness :
    (⟨true, some "A1", some "R1", []⟩ : ClientState).window = true ∧
    strTruthy (some "R1") = true ∧
    (⟨200, "OK", some (.jobj [("access", .jstr "A2")])⟩ : Response).ok = true ∧
    JsonVal.field (.jobj [("access", .jstr "A2")]) "access" = some (.jstr "A2") ∧
    (refreshToken "http://localhost:8000"
        ⟨⟨true, some "A1", some "R1", []⟩,
          [.resp ⟨200, "OK", some (.jobj [("access", .jstr "A2")])⟩], []⟩ =
      (true, ⟨⟨true, some "A2", some "R1", []⟩, [],
        [refreshRequest "http://localhost:8000" ⟨true, some "A1", some "R1", []⟩]⟩) ∧
     (refreshToken "http://localhost:8000"
        ⟨⟨true, some "A1", some "R1", []⟩,
          [.resp ⟨200, "OK", some (.jobj [("access", .jstr "A2")])⟩], []⟩).2.state.refresh
       = some "R1" ∧
     (refreshToken "http://localhost:8000"
        ⟨⟨true, some "A1", some "R1", []⟩,
          [.resp ⟨200, "OK", some (.jobj [("access", .jstr "A2")])⟩], []⟩).2.state.nav
       = []) :=
  ⟨rfl, by decide, by decide, rfl,
    refreshToken_success_updates_access_only "http://localhost:8000"
      ⟨⟨true, some "A1", some "R1", []⟩,
        [.resp ⟨200, "OK", some (.jobj [("access", .jstr "A2")])⟩], []⟩
      ⟨200, "OK", some (.jobj [("access", .jstr "A2")])⟩ []
      (.jobj [("access", .jstr "A2")]) "A2"
      rfl (by decide) rfl (by decide) rfl rfl⟩

/-- C6: `login` against a rejecting backend (non-success status) throws
`Invalid credentials` and persists nothing — the client state is exactly
what it was; against an accepting backend whose body parses with string
`access` and `refresh` fields, it persists both tokens and returns the
parsed pair verbatim. -/
theorem login_persists_iff_accepted (baseUrl : String)
    (credentials : LoginCredentials) (w : World) :
    (∀ r rest, w.responses = .resp r :: rest → r.ok = false →
      login baseUrl credentials w =
        (.error (.thrown "Invalid credentials"),
          { state := w.state, responses := rest,
            log := w.log ++ [loginRequest baseUrl credentials] })) ∧
    (∀ r rest d a rf, w.state.window = true →
      w.responses = .resp r :: rest → r.ok = true → r.body = some d →
      d.field "access" = some (.jstr a) →
      d.field "refresh" = some (.jstr rf) →
      login baseUrl credentials w =
        (.ok d,
          { state := { w.state with access := some a, refresh := some rf },
            responses := rest,
            log := w.log ++ [loginRequest baseUrl credentials] })) := by
  obtain ⟨s, resps, log⟩ := w
  constructor
  · intro r rest hresp hok
    simp only at hresp
    subst hresp
    simp [ApiClient.login, fetchM, hok]
  · intro r rest d a rf hw hresp hok hbody ha hrf
    simp only at hw hresp
    subst hresp
    simp [ApiClient.login, fetchM, ApiClient.setTokens, hw, hok, hbody, ha,
      hrf, jsString]

theorem login_persists_iff_accepted_witness :
    ((⟨401, "Unauthorized", none⟩ : Response).ok = false ∧
      login "http://localhost:8000" ⟨"alice", "pw"⟩
          ⟨⟨true, none, none, []⟩, [.resp ⟨401, "Unauthorized", none⟩], []⟩ =
        (.error (.thrown "Invalid credentials"),
          ⟨⟨true, none, none, []⟩, [],
            [loginRequest "http://localhost:8000" ⟨"alice", "pw"⟩]⟩)) ∧
    ((⟨200, "OK", some (.jobj [("access", .jstr "A1"), ("refresh", .jstr "R1")])⟩
        : Response).ok = true ∧
      login "http://localhost:8000" ⟨"alice", "pw"⟩
          ⟨⟨true, none, none, []⟩,
            [.resp ⟨200, "OK",
              some (.jobj [("access", .jstr "A1"), ("refresh", .jstr "R1")])⟩], []⟩ =
        (.ok (.jobj [("access", .jstr "A1"), ("refresh", .jstr "R1")]),
          ⟨⟨true, some "A1", some "R1", []⟩, [],
            [loginRequest "http://localhost:8000" ⟨"alice", "pw"⟩]⟩)) :=
  ⟨⟨by decide, (login_persists_iff_accepted "http://localhost:8000" ⟨"alice", "pw"⟩
      ⟨⟨true, none, none, []⟩, [.resp ⟨401, "Unauthorized", none⟩], []⟩).1
      ⟨401, "Unauthorized", none⟩ [] rfl (by decide)⟩,
   ⟨by decide, (login_persists_iff_accepted "http://localhost:8000" ⟨"alice", "pw"⟩
      ⟨⟨true, none, none, []⟩,
        [.resp ⟨200, "OK",
          some (.jobj [("access", .jstr "A1"), ("refresh", .jstr "R1")])⟩], []⟩).2
      ⟨200, "OK", some (.jobj [("access", .jstr "A1"), ("refresh", .jstr "R1")])⟩
      [] (.jobj [("access", .jstr "A1"), ("refresh", .jstr "R1")]) "A1" "R1"
      rfl rfl (by decide) rfl rfl rfl⟩⟩

theorem logout_idempotent_total_witness :
    (⟨true, some "A1", some "R1", []⟩ : ClientState).window = true ∧
    ((ApiClient.logout^[1 + 1] ⟨true, some "A1", some "R1", []⟩).window = true ∧
     (ApiClient.logout^[1 + 1] ⟨true, some "A1", some "R1", []⟩).access = none ∧
     (ApiClient.logout^[1 + 1] ⟨true, some "A1", some "R1", []⟩).refresh = none ∧
     (ApiClient.logout^[1 + 1] ⟨true, some "A1", some "R1", []⟩).nav
       = ([] : List String) ++ List.replicate (1 + 1) "/login") :=
  ⟨rfl, logout_idempotent_total ⟨true, some "A1", some "R1", []⟩ rfl 1⟩

/-- C10 as stated is false: an access token can be persisted as the empty
string (which JavaScript treats as falsy), and then the caller-supplied
`Authorization` header survives: the request goes out carrying
`Bearer attacker` although a token is persisted. -/
theorem request_auth_overwritten_counterexample :
    (⟨⟨true, some "", none, []⟩, [], []⟩ : World).state.access = some "" ∧
    ((request "http://localhost:8000" "/api/v1/customers/"
        { method := some "GET",
          headers := [("Authorization", "Bearer attacker")] }
        ⟨⟨true, some "", none, []⟩, [], []⟩).2.log.map
        (fun q => getHeader q.headers "Authorization"))
      = [some "Bearer attacker"] :=
  ⟨rfl, rfl⟩

/-- C10 amended: whenever a NON-EMPTY access token is persisted (in a
browser context), any caller-supplied `Authorization` header is silently
overwritten: the outgoing request carries `Bearer <stored token>` whatever
`options.headers` contained. -/
theorem request_auth_overwritten (baseUrl endpoint : String)
    (options : RequestInit) (w : World) (t : String)
    (hw : w.state.window = true)
    (ht : w.state.access = some t)
    (hne : t.isEmpty = false) :
    (((request baseUrl endpoint options w).2.log.drop w.log.length).head?).map
        (fun q => getHeader q.headers "Authorization")
      = some (some ("Bearer " ++ t)) := by
  have hp := request_log_grows baseUrl endpoint options w
  rw [head_drop_of_extension _ _ _ hp]
  simp [initialRequest, requestHeaders, ApiClient.getAccessToken, hw, ht,
    strTruthy, hne, jsTemplate, getHeader_setHeader]

theorem request_auth_overwritten_witness :
    (⟨⟨true, some "A1", none, []⟩, [], []⟩ : World).state.window = true ∧
    (⟨⟨true, some "A1", none, []⟩, [], []⟩ : World).state.access = some "A1" ∧
    "A1".isEmpty = false ∧
    (((request "http://localhost:8000" "/api/v1/customers/"
        { method := some "GET",
          headers := [("Authorization", "Bearer attacker")] }
        ⟨⟨true, some "A1", none, []⟩, [], []⟩).2.log.drop
        (⟨⟨true, some "A1", none, []⟩, [], []⟩ : World).log.length).head?).map
        (fun q => getHeader q.headers "Authorization")
      = some (some ("Bearer " ++ "A1")) :=
  ⟨rfl, rfl, by decide,
    request_auth_overwritten "http://localhost:8000" "/api/v1/customers/"
      { method := some "GET",
        headers := [("Authorization", "Bearer attacker")] }
      ⟨⟨true, some "A1", none, []⟩, [], []⟩ "A1" rfl rfl (by decide)⟩

/-- C7 as stated is false: an access token can be persisted as the empty
string (falsy in JavaScript), and then a `get` call issues its request
with NO `Authorization` header although an access token is persisted. -/
theorem wrappers_bearer_header_counterexample :
    (⟨⟨true, some "", none, []⟩, [], []⟩ : World).state.access = some "" ∧
    ((ApiClient.get "http://localhost:8000" "/api/v1/customers/"
        ⟨⟨true, some "", none, []⟩, [], []⟩).2.log.map
        (fun q => getHeader q.headers "Authorization")) = [none] :=
  ⟨rfl, rfl⟩

/-- C7 amended: for every call issued through `get`/`post`/`put`/`delete`
in a browser context, the outgoing request carries
`Authorization: Bearer <stored access token>` whenever a NON-EMPTY access
token is persisted, and carries no `Authorization` header when the
persisted access token is absent or empty (the wrappers pass no headers of
their own). -/
theorem wrappers_bearer_header (baseUrl endpoint : String)
    (data : Option JsonVal) (w : World) (hw : w.state.window = true) :
    ∀ res ∈ [ApiClient.get baseUrl endpoint w,
             ApiClient.post baseUrl endpoint data w,
             ApiClient.put baseUrl endpoint data w,
             ApiClient.delete baseUrl endpoint w],
      (∀ t, w.state.access = some t → t.isEmpty = false →
        ((res.2.log.drop w.log.length).head?).map
            (fun q => getHeader q.headers "Authorization")
          = some (some ("Bearer " ++ t))) ∧
      (strTruthy w.state.access = false →
        ((res.2.log.drop w.log.length).head?).map
            (fun q => getHeader q.headers "Authorization")
          = some none) := by
  have key : ∀ options : RequestInit, options.headers = [] →
      (∀ t, w.state.access = some t → t.isEmpty = false →
        (((request baseUrl endpoint options w).2.log.drop
            w.log.length).head?).map
            (fun q => getHeader q.headers "Authorization")
          = some (some ("Bearer " ++ t))) ∧
      (strTruthy w.state.access = false →
        (((request baseUrl endpoint options w).2.log.drop
            w.log.length).head?).map
            (fun q => getHeader q.headers "Authorization")
          = some none) := by
    intro options hopt
    have hp := request_log_grows baseUrl endpoint options w
    constructor
    · intro t ht hne
      rw [head_drop_of_extension _ _ _ hp]
      simp [initialRequest, requestHeaders, ApiClient.getAccessToken, hw, ht,
        strTruthy, hne, jsTemplate, getHeader_setHeader]
    · intro hfalsy
      rw [head_drop_of_extension _ _ _ hp]
      have htok : strTruthy (getAccessToken w.state) = false := by
        rw [show getAccessToken w.state = w.state.access by
          simp [ApiClient.getAccessToken, hw]]
        exact hfalsy
      simp [initialRequest, requestHeaders, hopt, mergeHeaders, htok,
        getHeader, List.find?]
  intro res hres
  simp only [List.mem_cons, List.not_mem_nil, or_false] at hres
  rcases hres with h | h | h | h
  · subst h
    simp only [ApiClient.get]
    exact key { method := some "GET" } rfl
  · subst h
    simp only [ApiClient.post]
    exact key { method := some "POST", body := stringifyIfTruthy data } rfl
  · subst h
    simp only [ApiClient.put]
    exact key { method := some "PUT", body := stringifyIfTruthy data } rfl
  · subst h
    simp only [ApiClient.delete]
    exact key { method := some "DELETE" } rfl

theorem wrappers_bearer_header_witness :
    (⟨⟨true, some "A1", none, []⟩, [], []⟩ : World).state.window = true ∧
    ApiClient.get "http://localhost:8000" "/api/v1/customers/"
        ⟨⟨true, some "A1", none, []⟩, [], []⟩
      ∈ [ApiClient.get "http://localhost:8000" "/api/v1/customers/"
          ⟨⟨true, some "A1", none, []⟩, [], []⟩,
         ApiClient.post "http://localhost:8000" "/api/v1/customers/" none
          ⟨⟨true, some "A1", none, []⟩, [], []⟩,
         ApiClient.put "http://localhost:8000" "/api/v1/customers/" none
          ⟨⟨true, some "A1", none, []⟩, [], []⟩,
         ApiClient.delete "http://localhost:8000" "/api/v1/customers/"
          ⟨⟨true, some "A1", none, []⟩, [], []⟩] ∧
    (⟨⟨true, some "A1", none, []⟩, [], []⟩ : World).state.access = some "A1" ∧
    "A1".isEmpty = false ∧
    (((ApiClient.get "http://localhost:8000" "/api/v1/customers/"
        ⟨⟨true, some "A1", none, []⟩, [], []⟩).2.log.drop
        (⟨⟨true, some "A1", none, []⟩, [], []⟩ : World).log.length).head?).map
        (fun q => getHeader q.headers "Authorization")
      = some (some ("Bearer " ++ "A1")) :=
  ⟨rfl, by simp,
   rfl, by decide,
   (wrappers_bearer_header "http://localhost:8000" "/api/v1/customers/" none
      ⟨⟨true, some "A1", none, []⟩, [], []⟩ rfl
      (ApiClient.get "http://localhost:8000" "/api/v1/customers/"
        ⟨⟨true, some "A1", none, []⟩, [], []⟩) (by simp)).1
      "A1" rfl (by decide)⟩

/-- C8 as stated is false: `post` (and `put`) decide whether to send a body
with JavaScript truthiness, so a present-but-falsy body such as `false` is
dropped: the request goes out with no body even though the body has a JSON
encoding ("false"). -/
theorem wrappers_fix_method_and_body_counterexample :
    ((ApiClient.post "http://localhost:8000" "/api/v1/vouchers/"
        (some (.jbool false)) ⟨⟨true, none, none, []⟩, [], []⟩).2.log.map
        (fun q => q.body)) = [none] ∧
    JsonVal.stringify (.jbool false) = "false" :=
  ⟨rfl, rfl⟩

/-- C8 amended: the `get`/`post`/`put`/`delete` wrappers call the generic
request operation with the corresponding fixed HTTP method; `post`/`put`
send the JSON encoding of their body when one is present AND truthy, and
send no body when the body is absent or falsy (`null`, `false`, `""`);
`get`/`delete` send no body. -/
theorem wrappers_fix_method_and_body (baseUrl endpoint : String)
    (data : Option JsonVal) (w : World) :
    (((ApiClient.get baseUrl endpoint w).2.log.drop w.log.length).head?).map
        (fun q => (q.method, q.body)) = some (some "GET", none) ∧
    (((ApiClient.post baseUrl endpoint data w).2.log.drop
        w.log.length).head?).map (fun q => (q.method, q.body))
      = some (some "POST",
          match data with
          | none => none
          | some d => if d.truthy then some (JsonVal.stringify d) else none) ∧
    (((ApiClient.put baseUrl endpoint data w).2.log.drop
        w.log.length).head?).map (fun q => (q.method, q.body))
      = some (some "PUT",
          match data with
          | none => none
          | some d => if d.truthy then some (JsonVal.stringify d) else none) ∧
    (((ApiClient.delete baseUrl endpoint w).2.log.drop w.log.length).head?).map
        (fun q => (q.method, q.body)) = some (some "DELETE", none) := by
  refine ⟨?_, ?_, ?_, ?_⟩
  · simp only [ApiClient.get]
    rw [head_drop_of_extension _ _ _ (request_log_grows baseUrl endpoint _ w)]
    simp [initialRequest]
  · simp only [ApiClient.post]
    rw [head_drop_of_extension _ _ _ (request_log_grows baseUrl endpoint _ w)]
    cases data with
    | none => simp [initialRequest, stringifyIfTruthy]
    | some d => simp [initialRequest, stringifyIfTruthy]
  · simp only [ApiClient.put]
    rw [head_drop_of_extension _ _ _ (request_log_grows baseUrl endpoint _ w)]
    cases data with
    | none => simp [initialRequest, stringifyIfTruthy]
    | some d => simp [initialRequest, stringifyIfTruthy]
  · simp only [ApiClient.delete]
    rw [head_drop_of_extension _ _ _ (request_log_grows baseUrl endpoint _ w)]
    simp [initialRequest]
